import Mathlib

/-!
Verification of the satellite-imagery-aesthetics taxonomy service
(`src/satellite_imagery_aesthetics/server.py`).

The service loads four fixed tables at startup and exposes pure lookup and
mapping operations over them.  We embed the tables as association lists from
normalized string keys to records, and each operation as a total Lean
function of the loaded tables and its string arguments.  Python dictionaries
preserve insertion order, so an association list is a faithful model; the
JSON serialization layer is out of scope and results are modelled as
structured values.
-/

/-- One imagery profile record (`imagery_profiles` table).  The Python field
`structure` is a Lean keyword, hence the guillemet spelling. -/
structure ImageryProfile where
  name : String
  «structure» : String
  material : String
  color : String
  texture : String
  composition : String
  style : String
  quality : String
  mood : String
  examples : String
deriving DecidableEq, Repr

/-- One altitude record (`altitude_perspectives` table). -/
structure AltitudePerspective where
  description : String
  scale : String
  context : String
deriving DecidableEq, Repr

/-- One feature-emphasis record (`feature_emphasis` table). -/
structure FeatureEmphasisOption where
  focus : String
deriving DecidableEq, Repr

/-- One aesthetic-strength record (`aesthetic_strength` table).
`characteristics` is a count of profile characteristics to select. -/
structure AestheticStrength where
  characteristics : Nat
  approach : String
deriving DecidableEq, Repr

/-- The four tables loaded from the YAML olog at startup (module-level
globals `imagery_profiles`, `altitude_perspectives`, `feature_emphasis`,
`aesthetic_strength` in the source). -/
structure Env where
  imagery_profiles : List (String × ImageryProfile)
  altitude_perspectives : List (String × AltitudePerspective)
  feature_emphasis : List (String × FeatureEmphasisOption)
  aesthetic_strength : List (String × AestheticStrength)
deriving DecidableEq, Repr

/-- Python `s.lower()` restricted to its ASCII behaviour, as a map over the
character list (`String.toLower` in Lean is the same per-character map). -/
def pylower (s : String) : String :=
  String.mk (s.data.map Char.toLower)

/-- Python `s.replace(" ", "_")`: the pattern is a single character, so the
call replaces each space character by an underscore. -/
def replaceSpaces (s : String) : String :=
  String.mk (s.data.map (fun c => if c = ' ' then '_' else c))

/-- The normalization applied to every incoming identifier:
`s.lower().replace(" ", "_")`. -/
def normalizeKey (s : String) : String :=
  replaceSpaces (pylower s)

/-- Result of `get_imagery_profile`: either the error payload (message plus
the list of valid ids) or the normalized id with the full record. -/
inductive ProfileResult where
  | error (msg : String) (available : List String)
  | ok (imagery_type : String) (profile : ImageryProfile)
deriving DecidableEq, Repr

/-- `list_imagery_types()`: all imagery-type ids in declaration order plus
their count. -/
def list_imagery_types (env : Env) : List String × Nat :=
  let types := env.imagery_profiles.map Prod.fst
  (types, types.length)

/-- `get_imagery_profile(imagery_type)`: normalize, then exact lookup. -/
def get_imagery_profile (env : Env) (imagery_type : String) : ProfileResult :=
  let imagery_type_normalized := normalizeKey imagery_type
  match env.imagery_profiles.lookup imagery_type_normalized with
  | none => .error ("Unknown imagery type: " ++ imagery_type)
      (env.imagery_profiles.map Prod.fst)
  | some profile => .ok imagery_type_normalized profile

/-- `list_altitude_perspectives()`: ids in order plus id-to-record details. -/
def list_altitude_perspectives (env : Env) :
    List String × List (String × AltitudePerspective) :=
  (env.altitude_perspectives.map Prod.fst, env.altitude_perspectives)

/-- `list_feature_emphasis_options()`: ids in order plus details. -/
def list_feature_emphasis_options (env : Env) :
    List String × List (String × FeatureEmphasisOption) :=
  (env.feature_emphasis.map Prod.fst, env.feature_emphasis)

/-- `list_aesthetic_strengths()`: ids in order plus details. -/
def list_aesthetic_strengths (env : Env) :
    List String × List (String × AestheticStrength) :=
  (env.aesthetic_strength.map Prod.fst, env.aesthetic_strength)

/-- The validation-error list built by `map_satellite_parameters`: one
message per input whose normalized form is absent from its table, in the
fixed order imagery, altitude, feature emphasis, strength.  Each message
echoes the raw (unnormalized) argument, as in the source f-strings. -/
def validationErrors (env : Env)
    (imagery_type altitude feature_emphasis_type strength : String) :
    List String :=
  (if (env.imagery_profiles.lookup (normalizeKey imagery_type)).isNone then
    ["Unknown imagery type: " ++ imagery_type] else []) ++
  (if (env.altitude_perspectives.lookup (normalizeKey altitude)).isNone then
    ["Unknown altitude: " ++ altitude] else []) ++
  (if (env.feature_emphasis.lookup (normalizeKey feature_emphasis_type)).isNone then
    ["Unknown feature emphasis: " ++ feature_emphasis_type] else []) ++
  (if (env.aesthetic_strength.lookup (normalizeKey strength)).isNone then
    ["Unknown aesthetic strength: " ++ strength] else [])

/-- The `all_characteristics` list of `map_satellite_parameters`: the eight
named characteristics of a profile in the fixed declared order. -/
def allCharacteristics (profile : ImageryProfile) : List (String × String) :=
  [("structure", profile.«structure»),
   ("material", profile.material),
   ("color", profile.color),
   ("texture", profile.texture),
   ("composition", profile.composition),
   ("style", profile.style),
   ("quality", profile.quality),
   ("mood", profile.mood)]

/-- The fixed `output_format` instruction string of the mapped result. -/
def outputFormat : String :=
  "60-80 words, natural sentence flow, vivid artistic language, ending with \x27highly detailed, 8k, satellite imagery aesthetic\x27"

/-- The altitude sub-object of the mapped result. -/
structure AltitudeOut where
  type : String
  description : String
  scale : String
  context : String
deriving DecidableEq, Repr

/-- The feature-emphasis sub-object of the mapped result. -/
structure FeatureOut where
  type : String
  focus : String
deriving DecidableEq, Repr

/-- The aesthetic-strength sub-object of the mapped result. -/
structure StrengthOut where
  type : String
  approach : String
  characteristic_count : Nat
deriving DecidableEq, Repr

/-- The `mapped_parameters` payload returned on the all-valid path.  The two
characteristic dictionaries are built from lists of distinct-keyed pairs, so
they are modelled as those pair lists. -/
structure MappedParameters where
  imagery_type : String
  profile_name : String
  altitude_perspective : AltitudeOut
  feature_emphasis : FeatureOut
  aesthetic_strength : StrengthOut
  selected_characteristics : List (String × String)
  all_available_characteristics : List (String × String)
  examples : String
  output_format : String
deriving DecidableEq, Repr

/-- Result of `map_satellite_parameters`: either the aggregated error list
(the payload then has only the `errors` key) or the mapped parameters. -/
inductive MapResult where
  | errors (errs : List String)
  | ok (m : MappedParameters)
deriving DecidableEq, Repr

/-- `map_satellite_parameters`: normalize all four inputs, validate each
against its table collecting every error, and if all are valid build the
mapped payload.  The source indexes the dictionaries unconditionally after
the `if errors` early return; here the same totality is expressed by
matching on the four lookups, whose all-`some` case coincides exactly with
the empty-error case. -/
def map_satellite_parameters (env : Env)
    (imagery_type altitude feature_emphasis_type strength : String) :
    MapResult :=
  let imagery_type_normalized := normalizeKey imagery_type
  let altitude_normalized := normalizeKey altitude
  let feature_normalized := normalizeKey feature_emphasis_type
  let strength_normalized := normalizeKey strength
  let errors := validationErrors env imagery_type altitude feature_emphasis_type strength
  if errors.isEmpty then
    match env.imagery_profiles.lookup imagery_type_normalized,
          env.altitude_perspectives.lookup altitude_normalized,
          env.feature_emphasis.lookup feature_normalized,
          env.aesthetic_strength.lookup strength_normalized with
    | some profile, some altitude_data, some feature_data, some strength_data =>
      let characteristic_count := strength_data.characteristics
      let all_characteristics := allCharacteristics profile
      let selected_characteristics := all_characteristics.take characteristic_count
      .ok ⟨imagery_type_normalized,
           profile.name,
           ⟨altitude_normalized, altitude_data.description,
            altitude_data.scale, altitude_data.context⟩,
           ⟨feature_normalized, feature_data.focus⟩,
           ⟨strength_normalized, strength_data.approach, characteristic_count⟩,
           selected_characteristics,
           all_characteristics,
           profile.examples,
           outputFormat⟩
    | _, _, _, _ => .errors errors
  else .errors errors

/-- Result of `get_enhancement_guidance`: the error payload for an unknown
imagery type, or the rendered plain-text guidance block. -/
inductive GuidanceResult where
  | error (msg : String)
  | text (s : String)
deriving DecidableEq, Repr

/-- The ternary-with-default pattern
`d.get(field, 'Unknown') if d else 'Unknown'` of the guidance renderer: the
records always carry their field, so the value is the field when the lookup
matched and the literal placeholder `"Unknown"` otherwise. -/
def orUnknown (o : Option String) : String :=
  o.getD "Unknown"

/-- The guidance f-string, with the profile fields and the three
possibly-`"Unknown"` descriptive values interpolated. -/
def guidanceTemplate (profile : ImageryProfile)
    (altitudeDesc featureFocus strengthApproach : String) : String :=
  "\nSATELLITE IMAGERY ENHANCEMENT GUIDANCE\n\nImagery Type: " ++ profile.name ++
  "\nAltitude Perspective: " ++ altitudeDesc ++
  "\nFeature Emphasis: " ++ featureFocus ++
  "\nAesthetic Strength: " ++ strengthApproach ++
  "\n\nKey Visual Elements:\n- Colors: " ++ profile.color ++
  "\n- Textures: " ++ profile.texture ++
  "\n- Mood: " ++ profile.mood ++
  "\n\nExamples to draw from: " ++ profile.examples ++
  "\n\nRemember:\n1. Preserve the user\x27s core concept completely\n2. Use vivid, artistic language\n3. Emphasize HOW it looks (colors, patterns, perspective), not WHAT it is\n4. End with \"highly detailed, 8k, satellite imagery aesthetic\"\n5. Never add subjects the user didn\x27t request\n"

/-- `get_enhancement_guidance`: unknown imagery type errors immediately;
the other three lookups degrade to the `"Unknown"` placeholder.  Python
`guidance.strip()` removes the leading and trailing newline, modelled by
`String.trim`. -/
def get_enhancement_guidance (env : Env)
    (imagery_type altitude feature_emphasis_type strength : String) :
    GuidanceResult :=
  let imagery_type_normalized := normalizeKey imagery_type
  let altitude_normalized := normalizeKey altitude
  let feature_normalized := normalizeKey feature_emphasis_type
  let strength_normalized := normalizeKey strength
  match env.imagery_profiles.lookup imagery_type_normalized with
  | none => .error ("Unknown imagery type: " ++ imagery_type)
  | some profile =>
    let altitude_data := env.altitude_perspectives.lookup altitude_normalized
    let feature_data := env.feature_emphasis.lookup feature_normalized
    let strength_data := env.aesthetic_strength.lookup strength_normalized
    .text (String.trim (guidanceTemplate profile
      (orUnknown (altitude_data.map AltitudePerspective.description))
      (orUnknown (feature_data.map FeatureEmphasisOption.focus))
      (orUnknown (strength_data.map AestheticStrength.approach))))

/-- A sample imagery profile used to populate the modelled tables. -/
def mkProfile (displayName : String) : ImageryProfile :=
  ⟨displayName, "layered forms", "terrain and canopy", "saturated bands",
   "fine-grained relief", "sweeping overhead frame", "cartographic abstraction",
   "crisp detail", "contemplative distance", "river deltas, mountain ridges"⟩

/-- Modelled from the spec: the YAML data file
`ologs/imagery_profiles.yaml` is loaded at startup but is not part of the
source tree.  The key sets, table sizes, and the `characteristics` counts
(subtle = 2, balanced = 4, strong = 6) follow the spec and the assertions of
`tests/test_server.py`; the free-text fields are representative non-empty
placeholder text, which no claim depends on. -/
def olog : Env :=
  { imagery_profiles :=
      [("false_color_infrared", mkProfile "False Color Infrared"),
       ("true_color_rgb", mkProfile "True Color RGB"),
       ("thermal_infrared", mkProfile "Thermal Infrared"),
       ("synthetic_aperture_radar", mkProfile "Synthetic Aperture Radar"),
       ("lidar_elevation", mkProfile "LiDAR Elevation"),
       ("multispectral_agriculture", mkProfile "Multispectral Agriculture")],
    altitude_perspectives :=
      [("orbital", ⟨"view from orbit", "continental", "whole-earth curvature"⟩),
       ("high_altitude", ⟨"high-altitude survey", "regional", "broad landscape"⟩),
       ("medium_altitude", ⟨"medium-altitude view", "district", "city-scale pattern"⟩),
       ("low_altitude", ⟨"low-altitude detail", "neighborhood", "street-scale texture"⟩)],
    feature_emphasis :=
      [("natural", ⟨"landforms, water, vegetation"⟩),
       ("urban", ⟨"built structures and grids"⟩),
       ("abstract", ⟨"pattern and geometry over subject"⟩),
       ("mixed", ⟨"blend of natural and built features"⟩)],
    aesthetic_strength :=
      [("subtle", ⟨2, "light descriptive touch"⟩),
       ("balanced", ⟨4, "moderate stylization"⟩),
       ("strong", ⟨6, "full aesthetic treatment"⟩)] }

/-- One invocation of an exposed operation with its string arguments. -/
inductive Op where
  | listImageryTypes
  | getImageryProfile (imagery_type : String)
  | listAltitudePerspectives
  | listFeatureEmphasisOptions
  | listAestheticStrengths
  | mapSatelliteParameters (imagery_type altitude feature_emphasis_type strength : String)
  | getEnhancementGuidance (imagery_type altitude feature_emphasis_type strength : String)
deriving DecidableEq, Repr

/-- The structured output of one operation invocation. -/
inductive Output where
  | imageryTypes (r : List String × Nat)
  | profileR (r : ProfileResult)
  | altitudes (r : List String × List (String × AltitudePerspective))
  | emphases (r : List String × List (String × FeatureEmphasisOption))
  | strengths (r : List String × List (String × AestheticStrength))
  | mapped (r : MapResult)
  | guidance (r : GuidanceResult)
deriving DecidableEq, Repr

/-- State-passing semantics of one operation call: the body of every tool
function only reads the module-level tables, so each call returns its output
together with the table state it leaves behind. -/
def runOp (op : Op) (env : Env) : Output × Env :=
  match op with
  | .listImageryTypes => (.imageryTypes (list_imagery_types env), env)
  | .getImageryProfile i => (.profileR (get_imagery_profile env i), env)
  | .listAltitudePerspectives => (.altitudes (list_altitude_perspectives env), env)
  | .listFeatureEmphasisOptions => (.emphases (list_feature_emphasis_options env), env)
  | .listAestheticStrengths => (.strengths (list_aesthetic_strengths env), env)
  | .mapSatelliteParameters i a f s => (.mapped (map_satellite_parameters env i a f s), env)
  | .getEnhancementGuidance i a f s => (.guidance (get_enhancement_guidance env i a f s), env)

/-- `Char.ofNat` at a valid code point round-trips through `toNat`. -/
theorem char_toNat_ofNat_valid (n : Nat) (h : n.isValidChar) :
    (Char.ofNat n).toNat = n := by
  rw [Char.ofNat, dif_pos h]
  rfl

/-- ASCII lower-casing of a character is idempotent. -/
theorem char_toLower_idem (c : Char) : c.toLower.toLower = c.toLower := by
  unfold Char.toLower
  by_cases h : c.toNat ≥ 65 ∧ c.toNat ≤ 90
  · rw [if_pos h]
    have hv : (c.toNat + 32).isValidChar := Or.inl (by omega)
    have ht : (Char.ofNat (c.toNat + 32)).toNat = c.toNat + 32 :=
      char_toNat_ofNat_valid _ hv
    rw [if_neg (by omega)]
  · rw [if_neg h, if_neg h]

/-- The per-character action of `normalizeKey` (lower-case, then map space to
underscore) is idempotent. -/
theorem normChar_idem (c : Char) :
    (if Char.toLower (if Char.toLower c = ' ' then '_' else Char.toLower c) = ' '
     then '_' else Char.toLower (if Char.toLower c = ' ' then '_' else Char.toLower c)) =
    (if Char.toLower c = ' ' then '_' else Char.toLower c) := by
  by_cases hd : Char.toLower c = ' '
  · rw [if_pos hd]
    decide
  · simp only [if_neg hd, char_toLower_idem]

/-- Key normalization is idempotent: already-normalized identifiers are
fixed points. -/
theorem normalizeKey_idem (s : String) :
    normalizeKey (normalizeKey s) = normalizeKey s := by
  unfold normalizeKey replaceSpaces pylower
  apply congrArg String.mk
  simp only [List.map_map]
  apply List.map_congr_left
  intro a _
  simpa using normChar_idem a

/-- On all-valid inputs `map_satellite_parameters` builds the mapped payload
from the four matched records. -/
theorem map_satellite_parameters_ok (env : Env)
    (i a f s : String) (profile : ImageryProfile) (ad : AltitudePerspective)
    (fd : FeatureEmphasisOption) (sd : AestheticStrength)
    (h1 : env.imagery_profiles.lookup (normalizeKey i) = some profile)
    (h2 : env.altitude_perspectives.lookup (normalizeKey a) = some ad)
    (h3 : env.feature_emphasis.lookup (normalizeKey f) = some fd)
    (h4 : env.aesthetic_strength.lookup (normalizeKey s) = some sd) :
    map_satellite_parameters env i a f s =
      .ok ⟨normalizeKey i, profile.name,
           ⟨normalizeKey a, ad.description, ad.scale, ad.context⟩,
           ⟨normalizeKey f, fd.focus⟩,
           ⟨normalizeKey s, sd.approach, sd.characteristics⟩,
           (allCharacteristics profile).take sd.characteristics,
           allCharacteristics profile,
           profile.examples,
           outputFormat⟩ := by
  simp [map_satellite_parameters, validationErrors, h1, h2, h3, h4]

/-- When any validation error arises, `map_satellite_parameters` returns the
aggregated error list and nothing else. -/
theorem map_satellite_parameters_errors (env : Env) (i a f s : String)
    (h : validationErrors env i a f s ≠ []) :
    map_satellite_parameters env i a f s =
      .errors (validationErrors env i a f s) := by
  unfold map_satellite_parameters
  rw [if_neg]
  simp [h]

/-- Claim C5: for every input string, `get_imagery_profile` either returns
the normalized id with the full record (when the normalized key is in the
imagery table), or a structured error payload naming the unknown input and
listing all valid imagery ids; it is a total function, never a hard
failure. -/
theorem get_imagery_profile_total (env : Env) (s : String) :
    (∃ p, env.imagery_profiles.lookup (normalizeKey s) = some p ∧
      get_imagery_profile env s = .ok (normalizeKey s) p) ∨
    (env.imagery_profiles.lookup (normalizeKey s) = none ∧
      get_imagery_profile env s =
        .error ("Unknown imagery type: " ++ s) (env.imagery_profiles.map Prod.fst)) := by
  cases hl : env.imagery_profiles.lookup (normalizeKey s) with
  | none =>
    right
    exact ⟨rfl, by simp [get_imagery_profile, hl]⟩
  | some p =>
    left
    exact ⟨p, rfl, by simp [get_imagery_profile, hl]⟩

/-- Claim C3: every identifier-taking operation — `get_imagery_profile`,
`map_satellite_parameters` and `get_enhancement_guidance` — normalizes each
incoming identifier by lower-casing it and replacing spaces with
underscores, then looks it up by exact match against the normalized key:
each operation's outcome is fully determined by the exact lookups of the
normalized keys, on the hit paths and on the miss paths alike.  In
particular `get_imagery_profile "True Color RGB"` looks up `true_color_rgb`
and, when present, returns that normalized id with the full record. -/
theorem identifier_ops_normalize_before_lookup (env : Env) (p : ImageryProfile)
    (h : env.imagery_profiles.lookup "true_color_rgb" = some p) :
    normalizeKey "True Color RGB" = "true_color_rgb" ∧
    get_imagery_profile env "True Color RGB" = .ok "true_color_rgb" p ∧
    (∀ t q, env.imagery_profiles.lookup (normalizeKey t) = some q →
      get_imagery_profile env t = .ok (normalizeKey t) q) ∧
    (∀ t, env.imagery_profiles.lookup (normalizeKey t) = none →
      get_imagery_profile env t =
        .error ("Unknown imagery type: " ++ t) (env.imagery_profiles.map Prod.fst)) ∧
    (∀ i a f s profile ad fd sd,
      env.imagery_profiles.lookup (normalizeKey i) = some profile →
      env.altitude_perspectives.lookup (normalizeKey a) = some ad →
      env.feature_emphasis.lookup (normalizeKey f) = some fd →
      env.aesthetic_strength.lookup (normalizeKey s) = some sd →
      map_satellite_parameters env i a f s =
        .ok ⟨normalizeKey i, profile.name,
             ⟨normalizeKey a, ad.description, ad.scale, ad.context⟩,
             ⟨normalizeKey f, fd.focus⟩,
             ⟨normalizeKey s, sd.approach, sd.characteristics⟩,
             (allCharacteristics profile).take sd.characteristics,
             allCharacteristics profile,
             profile.examples,
             outputFormat⟩) ∧
    (∀ i a f s, validationErrors env i a f s ≠ [] →
      map_satellite_parameters env i a f s =
        .errors (validationErrors env i a f s)) ∧
    (∀ i a f s profile,
      env.imagery_profiles.lookup (normalizeKey i) = some profile →
      get_enhancement_guidance env i a f s =
        .text (String.trim (guidanceTemplate profile
          (orUnknown ((env.altitude_perspectives.lookup (normalizeKey a)).map
            AltitudePerspective.description))
          (orUnknown ((env.feature_emphasis.lookup (normalizeKey f)).map
            FeatureEmphasisOption.focus))
          (orUnknown ((env.aesthetic_strength.lookup (normalizeKey s)).map
            AestheticStrength.approach))))) ∧
    (∀ i a f s, env.imagery_profiles.lookup (normalizeKey i) = none →
      get_enhancement_guidance env i a f s =
        .error ("Unknown imagery type: " ++ i)) := by
  have he : normalizeKey "True Color RGB" = "true_color_rgb" := by decide
  refine ⟨he, ?_, ?_, ?_, ?_, ?_, ?_, ?_⟩
  · simp [get_imagery_profile, he, h]
  · intro t q hq
    simp [get_imagery_profile, hq]
  · intro t hn
    simp [get_imagery_profile, hn]
  · intro i a f s profile ad fd sd h1 h2 h3 h4
    exact map_satellite_parameters_ok env i a f s profile ad fd sd h1 h2 h3 h4
  · intro i a f s hne
    exact map_satellite_parameters_errors env i a f s hne
  · intro i a f s profile hp
    simp [get_enhancement_guidance, hp]
  · intro i a f s hn
    simp [get_enhancement_guidance, hn]

/-- Claim C3 witness at the modelled tables: the concrete normalization of
`"True Color RGB"` and the instantiated per-operation clauses. -/
theorem identifier_ops_normalize_before_lookup_witness :
    olog.imagery_profiles.lookup "true_color_rgb" = some (mkProfile "True Color RGB") ∧
    (normalizeKey "True Color RGB" = "true_color_rgb" ∧
     get_imagery_profile olog "True Color RGB" =
       .ok "true_color_rgb" (mkProfile "True Color RGB") ∧
     (∀ t q, olog.imagery_profiles.lookup (normalizeKey t) = some q →
       get_imagery_profile olog t = .ok (normalizeKey t) q) ∧
     (∀ t, olog.imagery_profiles.lookup (normalizeKey t) = none →
       get_imagery_profile olog t =
         .error ("Unknown imagery type: " ++ t) (olog.imagery_profiles.map Prod.fst)) ∧
     (∀ i a f s profile ad fd sd,
       olog.imagery_profiles.lookup (normalizeKey i) = some profile →
       olog.altitude_perspectives.lookup (normalizeKey a) = some ad →
       olog.feature_emphasis.lookup (normalizeKey f) = some fd →
       olog.aesthetic_strength.lookup (normalizeKey s) = some sd →
       map_satellite_parameters olog i a f s =
         .ok ⟨normalizeKey i, profile.name,
              ⟨normalizeKey a, ad.description, ad.scale, ad.context⟩,
              ⟨normalizeKey f, fd.focus⟩,
              ⟨normalizeKey s, sd.approach, sd.characteristics⟩,
              (allCharacteristics profile).take sd.characteristics,
              allCharacteristics profile,
              profile.examples,
              outputFormat⟩) ∧
     (∀ i a f s, validationErrors olog i a f s ≠ [] →
       map_satellite_parameters olog i a f s =
         .errors (validationErrors olog i a f s)) ∧
     (∀ i a f s profile,
       olog.imagery_profiles.lookup (normalizeKey i) = some profile →
       get_enhancement_guidance olog i a f s =
         .text (String.trim (guidanceTemplate profile
           (orUnknown ((olog.altitude_perspectives.lookup (normalizeKey a)).map
             AltitudePerspective.description))
           (orUnknown ((olog.feature_emphasis.lookup (normalizeKey f)).map
             FeatureEmphasisOption.focus))
           (orUnknown ((olog.aesthetic_strength.lookup (normalizeKey s)).map
             AestheticStrength.approach))))) ∧
     (∀ i a f s, olog.imagery_profiles.lookup (normalizeKey i) = none →
       get_enhancement_guidance olog i a f s =
         .error ("Unknown imagery type: " ++ i))) :=
  ⟨by decide,
   identifier_ops_normalize_before_lookup olog (mkProfile "True Color RGB") (by decide)⟩

/-- Claim C1: on all-valid normalized inputs, the mapped result's
`selected_characteristics` is exactly the prefix (`take`) of the fixed
ordered eight-characteristic list of the matched profile, of length given
by the matched strength's `characteristics` count, and
`all_available_characteristics` is exactly that eight-entry list in the
fixed declared order. -/
theorem map_selected_is_ordered_prefix (env : Env)
    (i a f s : String) (profile : ImageryProfile) (ad : AltitudePerspective)
    (fd : FeatureEmphasisOption) (sd : AestheticStrength)
    (h1 : env.imagery_profiles.lookup (normalizeKey i) = some profile)
    (h2 : env.altitude_perspectives.lookup (normalizeKey a) = some ad)
    (h3 : env.feature_emphasis.lookup (normalizeKey f) = some fd)
    (h4 : env.aesthetic_strength.lookup (normalizeKey s) = some sd) :
    ∃ m, map_satellite_parameters env i a f s = .ok m ∧
      m.selected_characteristics = (allCharacteristics profile).take sd.characteristics ∧
      m.selected_characteristics.length = min sd.characteristics 8 ∧
      m.all_available_characteristics = allCharacteristics profile ∧
      m.all_available_characteristics.length = 8 ∧
      (allCharacteristics profile).map Prod.fst =
        ["structure", "material", "color", "texture",
         "composition", "style", "quality", "mood"] := by
  refine ⟨_, map_satellite_parameters_ok env i a f s profile ad fd sd h1 h2 h3 h4,
    rfl, ?_, rfl, rfl, rfl⟩
  simp [allCharacteristics, List.length_take]

/-- Claim C1 witness: the spec's sample all-valid call on the modelled
tables selects the first six characteristics and exposes all eight. -/
theorem map_selected_is_ordered_prefix_witness :
    olog.imagery_profiles.lookup (normalizeKey "false_color_infrared") =
      some (mkProfile "False Color Infrared") ∧
    ∃ m, map_satellite_parameters olog
        "false_color_infrared" "orbital" "natural" "strong" = .ok m ∧
      m.selected_characteristics =
        (allCharacteristics (mkProfile "False Color Infrared")).take
          (AestheticStrength.characteristics ⟨6, "full aesthetic treatment"⟩) ∧
      m.selected_characteristics.length =
        min (AestheticStrength.characteristics ⟨6, "full aesthetic treatment"⟩) 8 ∧
      m.all_available_characteristics =
        allCharacteristics (mkProfile "False Color Infrared") ∧
      m.all_available_characteristics.length = 8 ∧
      (allCharacteristics (mkProfile "False Color Infrared")).map Prod.fst =
        ["structure", "material", "color", "texture",
         "composition", "style", "quality", "mood"] :=
  ⟨by decide,
   map_selected_is_ordered_prefix olog
     "false_color_infrared" "orbital" "natural" "strong"
     (mkProfile "False Color Infrared")
     ⟨"view from orbit", "continental", "whole-earth curvature"⟩
     ⟨"landforms, water, vegetation"⟩
     ⟨6, "full aesthetic treatment"⟩
     (by decide) (by decide) (by decide) (by decide)⟩

/-- Claim C7: every all-valid result of `map_satellite_parameters` carries
the fixed `output_format` instruction string. -/
theorem map_output_format_constant (env : Env)
    (i a f s : String) (profile : ImageryProfile) (ad : AltitudePerspective)
    (fd : FeatureEmphasisOption) (sd : AestheticStrength)
    (h1 : env.imagery_profiles.lookup (normalizeKey i) = some profile)
    (h2 : env.altitude_perspectives.lookup (normalizeKey a) = some ad)
    (h3 : env.feature_emphasis.lookup (normalizeKey f) = some fd)
    (h4 : env.aesthetic_strength.lookup (normalizeKey s) = some sd) :
    ∃ m, map_satellite_parameters env i a f s = .ok m ∧
      m.output_format =
        "60-80 words, natural sentence flow, vivid artistic language, ending with \x27highly detailed, 8k, satellite imagery aesthetic\x27" :=
  ⟨_, map_satellite_parameters_ok env i a f s profile ad fd sd h1 h2 h3 h4, rfl⟩

/-- Claim C7 witness at a concrete all-valid call. -/
theorem map_output_format_constant_witness :
    olog.aesthetic_strength.lookup (normalizeKey "balanced") =
      some ⟨4, "moderate stylization"⟩ ∧
    ∃ m, map_satellite_parameters olog
        "true_color_rgb" "medium_altitude" "mixed" "balanced" = .ok m ∧
      m.output_format =
        "60-80 words, natural sentence flow, vivid artistic language, ending with \x27highly detailed, 8k, satellite imagery aesthetic\x27" :=
  ⟨by decide,
   map_output_format_constant olog
     "true_color_rgb" "medium_altitude" "mixed" "balanced"
     (mkProfile "True Color RGB")
     ⟨"medium-altitude view", "district", "city-scale pattern"⟩
     ⟨"blend of natural and built features"⟩
     ⟨4, "moderate stylization"⟩
     (by decide) (by decide) (by decide) (by decide)⟩

/-- Claim C10: the characteristic selection is total for any matched
strength record: for any count the slice never fails,
`selected_characteristics` has exactly `min count 8` entries, and a count of
eight or more silently yields the whole eight-entry list — the code has no
upper-bound check. -/
theorem map_selected_take_total (env : Env)
    (i a f s : String) (profile : ImageryProfile) (ad : AltitudePerspective)
    (fd : FeatureEmphasisOption) (sd : AestheticStrength)
    (h1 : env.imagery_profiles.lookup (normalizeKey i) = some profile)
    (h2 : env.altitude_perspectives.lookup (normalizeKey a) = some ad)
    (h3 : env.feature_emphasis.lookup (normalizeKey f) = some fd)
    (h4 : env.aesthetic_strength.lookup (normalizeKey s) = some sd) :
    ∃ m, map_satellite_parameters env i a f s = .ok m ∧
      m.selected_characteristics.length = min sd.characteristics 8 ∧
      (8 ≤ sd.characteristics →
        m.selected_characteristics = allCharacteristics profile) := by
  refine ⟨_, map_satellite_parameters_ok env i a f s profile ad fd sd h1 h2 h3 h4,
    ?_, ?_⟩
  · simp [allCharacteristics, List.length_take]
  · intro hge
    exact List.take_of_length_le (by simp [allCharacteristics]; omega)

/-- A single-entry environment whose only strength level asks for twelve
characteristics, exercising the missing upper-bound check. -/
def oversizedEnv : Env :=
  { imagery_profiles := [("t", mkProfile "T")],
    altitude_perspectives := [("o", ⟨"orbit view", "global", "curvature"⟩)],
    feature_emphasis := [("n", ⟨"landforms"⟩)],
    aesthetic_strength := [("x", ⟨12, "everything"⟩)] }

/-- Claim C10 witness: a strength count of twelve yields all eight
characteristics instead of an error. -/
theorem map_selected_take_total_witness :
    oversizedEnv.aesthetic_strength.lookup (normalizeKey "x") =
      some ⟨12, "everything"⟩ ∧
    ∃ m, map_satellite_parameters oversizedEnv "t" "o" "n" "x" = .ok m ∧
      m.selected_characteristics.length = min (AestheticStrength.characteristics ⟨12, "everything"⟩) 8 ∧
      (8 ≤ AestheticStrength.characteristics ⟨12, "everything"⟩ →
        m.selected_characteristics = allCharacteristics (mkProfile "T")) :=
  ⟨by decide,
   map_selected_take_total oversizedEnv "t" "o" "n" "x"
     (mkProfile "T") ⟨"orbit view", "global", "curvature"⟩ ⟨"landforms"⟩
     ⟨12, "everything"⟩ (by decide) (by decide) (by decide) (by decide)⟩

/-- Claim C2: when any normalized input is absent from its table, the call
returns only the aggregated error list (the `errors` constructor carries no
other payload, in particular no `selected_characteristics`); the list has
exactly one entry per invalid input, and each invalid input's message is
present in it. -/
theorem map_invalid_reports_all_errors (env : Env) (i a f s : String)
    (h : validationErrors env i a f s ≠ []) :
    map_satellite_parameters env i a f s =
      .errors (validationErrors env i a f s) ∧
    (validationErrors env i a f s).length =
      ((if (env.imagery_profiles.lookup (normalizeKey i)).isNone then 1 else 0) +
       (if (env.altitude_perspectives.lookup (normalizeKey a)).isNone then 1 else 0) +
       (if (env.feature_emphasis.lookup (normalizeKey f)).isNone then 1 else 0) +
       (if (env.aesthetic_strength.lookup (normalizeKey s)).isNone then 1 else 0)) ∧
    (env.imagery_profiles.lookup (normalizeKey i) = none →
      ("Unknown imagery type: " ++ i) ∈ validationErrors env i a f s) ∧
    (env.altitude_perspectives.lookup (normalizeKey a) = none →
      ("Unknown altitude: " ++ a) ∈ validationErrors env i a f s) ∧
    (env.feature_emphasis.lookup (normalizeKey f) = none →
      ("Unknown feature emphasis: " ++ f) ∈ validationErrors env i a f s) ∧
    (env.aesthetic_strength.lookup (normalizeKey s) = none →
      ("Unknown aesthetic strength: " ++ s) ∈ validationErrors env i a f s) := by
  refine ⟨map_satellite_parameters_errors env i a f s h, ?_, ?_, ?_, ?_, ?_⟩
  · unfold validationErrors
    by_cases c1 : (env.imagery_profiles.lookup (normalizeKey i)).isNone <;>
    by_cases c2 : (env.altitude_perspectives.lookup (normalizeKey a)).isNone <;>
    by_cases c3 : (env.feature_emphasis.lookup (normalizeKey f)).isNone <;>
    by_cases c4 : (env.aesthetic_strength.lookup (normalizeKey s)).isNone <;>
    simp [c1, c2, c3, c4]
  · intro hn
    simp [validationErrors, hn]
  · intro hn
    simp [validationErrors, hn]
  · intro hn
    simp [validationErrors, hn]
  · intro hn
    simp [validationErrors, hn]

/-- Claim C2 witness: four invalid inputs produce the error payload with
exactly four entries, one per input. -/
theorem map_invalid_reports_all_errors_witness :
    validationErrors olog "not_a_type" "not_an_altitude" "x" "y" ≠ [] ∧
    (map_satellite_parameters olog "not_a_type" "not_an_altitude" "x" "y" =
       .errors (validationErrors olog "not_a_type" "not_an_altitude" "x" "y") ∧
     (validationErrors olog "not_a_type" "not_an_altitude" "x" "y").length =
       ((if (olog.imagery_profiles.lookup (normalizeKey "not_a_type")).isNone then 1 else 0) +
        (if (olog.altitude_perspectives.lookup (normalizeKey "not_an_altitude")).isNone then 1 else 0) +
        (if (olog.feature_emphasis.lookup (normalizeKey "x")).isNone then 1 else 0) +
        (if (olog.aesthetic_strength.lookup (normalizeKey "y")).isNone then 1 else 0)) ∧
     (olog.imagery_profiles.lookup (normalizeKey "not_a_type") = none →
       ("Unknown imagery type: " ++ "not_a_type") ∈
         validationErrors olog "not_a_type" "not_an_altitude" "x" "y") ∧
     (olog.altitude_perspectives.lookup (normalizeKey "not_an_altitude") = none →
       ("Unknown altitude: " ++ "not_an_altitude") ∈
         validationErrors olog "not_a_type" "not_an_altitude" "x" "y") ∧
     (olog.feature_emphasis.lookup (normalizeKey "x") = none →
       ("Unknown feature emphasis: " ++ "x") ∈
         validationErrors olog "not_a_type" "not_an_altitude" "x" "y") ∧
     (olog.aesthetic_strength.lookup (normalizeKey "y") = none →
       ("Unknown aesthetic strength: " ++ "y") ∈
         validationErrors olog "not_a_type" "not_an_altitude" "x" "y")) :=
  ⟨by decide,
   map_invalid_reports_all_errors olog "not_a_type" "not_an_altitude" "x" "y"
     (by decide)⟩

/-- Claim C4: `get_enhancement_guidance` errors immediately on an unknown
imagery type; for a known imagery type it returns a non-error text block
even when the altitude is unknown, with the altitude slot of the rendered
template holding the literal placeholder `"Unknown"`. -/
theorem guidance_degrades_gracefully (env : Env)
    (i a f s : String) :
    (env.imagery_profiles.lookup (normalizeKey i) = none →
      get_enhancement_guidance env i a f s =
        .error ("Unknown imagery type: " ++ i)) ∧
    (∀ profile, env.imagery_profiles.lookup (normalizeKey i) = some profile →
      get_enhancement_guidance env i a f s =
        .text (String.trim (guidanceTemplate profile
          (orUnknown ((env.altitude_perspectives.lookup (normalizeKey a)).map
            AltitudePerspective.description))
          (orUnknown ((env.feature_emphasis.lookup (normalizeKey f)).map
            FeatureEmphasisOption.focus))
          (orUnknown ((env.aesthetic_strength.lookup (normalizeKey s)).map
            AestheticStrength.approach))))) ∧
    (env.altitude_perspectives.lookup (normalizeKey a) = none →
      orUnknown ((env.altitude_perspectives.lookup (normalizeKey a)).map
        AltitudePerspective.description) = "Unknown") ∧
    (env.feature_emphasis.lookup (normalizeKey f) = none →
      orUnknown ((env.feature_emphasis.lookup (normalizeKey f)).map
        FeatureEmphasisOption.focus) = "Unknown") ∧
    (env.aesthetic_strength.lookup (normalizeKey s) = none →
      orUnknown ((env.aesthetic_strength.lookup (normalizeKey s)).map
        AestheticStrength.approach) = "Unknown") := by
  refine ⟨?_, ?_, ?_, ?_, ?_⟩
  · intro hn
    simp [get_enhancement_guidance, hn]
  · intro profile hp
    simp [get_enhancement_guidance, hp]
  · intro hn
    rw [hn]
    rfl
  · intro hn
    rw [hn]
    rfl
  · intro hn
    rw [hn]
    rfl

/-- Claim C4 witness: an unknown imagery type errors, and a valid imagery
type with an invalid altitude still renders text with the `"Unknown"`
placeholder in the altitude slot. -/
theorem guidance_degrades_gracefully_witness :
    (get_enhancement_guidance olog "nope" "orbital" "natural" "strong" =
      .error ("Unknown imagery type: " ++ "nope")) ∧
    (get_enhancement_guidance olog "true_color_rgb" "stratospheric" "natural" "strong" =
      .text (String.trim (guidanceTemplate (mkProfile "True Color RGB")
        (orUnknown ((olog.altitude_perspectives.lookup (normalizeKey "stratospheric")).map
          AltitudePerspective.description))
        (orUnknown ((olog.feature_emphasis.lookup (normalizeKey "natural")).map
          FeatureEmphasisOption.focus))
        (orUnknown ((olog.aesthetic_strength.lookup (normalizeKey "strong")).map
          AestheticStrength.approach))))) ∧
    orUnknown ((olog.altitude_perspectives.lookup (normalizeKey "stratospheric")).map
      AltitudePerspective.description) = "Unknown" :=
  ⟨(guidance_degrades_gracefully olog "nope" "orbital" "natural" "strong").1
     (by decide),
   (guidance_degrades_gracefully olog
      "true_color_rgb" "stratospheric" "natural" "strong").2.1
     (mkProfile "True Color RGB") (by decide),
   (guidance_degrades_gracefully olog
      "true_color_rgb" "stratospheric" "natural" "strong").2.2.1
     (by decide)⟩

/-- Claim C6: the loaded tables contain exactly 6 imagery profiles, 4
altitude perspectives, 4 feature-emphasis options and 3 aesthetic-strength
levels, and the strength characteristics counts are subtle = 2,
balanced = 4, strong = 6. -/
theorem olog_table_sizes_and_strengths :
    olog.imagery_profiles.length = 6 ∧
    olog.altitude_perspectives.length = 4 ∧
    olog.feature_emphasis.length = 4 ∧
    olog.aesthetic_strength.length = 3 ∧
    (olog.aesthetic_strength.lookup "subtle").map AestheticStrength.characteristics = some 2 ∧
    (olog.aesthetic_strength.lookup "balanced").map AestheticStrength.characteristics = some 4 ∧
    (olog.aesthetic_strength.lookup "strong").map AestheticStrength.characteristics = some 6 := by
  decide

/-- Claim C8: every exposed operation is deterministic and stateless in the
state-passing semantics: a call leaves the four tables unchanged, and an
immediately repeated call with identical arguments returns the identical
output. -/
theorem runOp_stateless_deterministic (op : Op) (env : Env) :
    (runOp op env).2 = env ∧
    (runOp op ((runOp op env).2)).1 = (runOp op env).1 := by
  cases op <;> exact ⟨rfl, rfl⟩

/-- Claim C9 counterexample: pre-normalizing the input is observable on an
unknown key, because the error message echoes the raw argument — the call
with `"Not A Type"` and the call with its normalized form `"not_a_type"`
return different error payloads. -/
theorem prenormalization_not_invariant_on_error :
    get_imagery_profile olog "Not A Type" ≠
      get_imagery_profile olog (normalizeKey "Not A Type") := by
  decide

/-- Claim C9 (amended): key normalization is idempotent, so
already-normalized ids are fixed points, and each identifier-taking
operation is invariant under pre-normalization whenever every identifier
whose raw form it would echo is found: `get_imagery_profile` when its
imagery type is found, `map_satellite_parameters` when all four identifiers
are found, and `get_enhancement_guidance` whenever the imagery type is
found — even with unknown altitude, feature emphasis or strength, since
both calls then render the same `"Unknown"` placeholder.  Only the
unknown-key error payloads, which echo the raw input, can distinguish the
two calls. -/
theorem prenormalization_invariant_on_valid (env : Env)
    (i a f s : String) :
    normalizeKey (normalizeKey i) = normalizeKey i ∧
    (∀ p, env.imagery_profiles.lookup (normalizeKey i) = some p →
      get_imagery_profile env i = get_imagery_profile env (normalizeKey i)) ∧
    (∀ profile ad fd sd,
      env.imagery_profiles.lookup (normalizeKey i) = some profile →
      env.altitude_perspectives.lookup (normalizeKey a) = some ad →
      env.feature_emphasis.lookup (normalizeKey f) = some fd →
      env.aesthetic_strength.lookup (normalizeKey s) = some sd →
      map_satellite_parameters env i a f s =
        map_satellite_parameters env (normalizeKey i) (normalizeKey a)
          (normalizeKey f) (normalizeKey s)) ∧
    (∀ profile, env.imagery_profiles.lookup (normalizeKey i) = some profile →
      get_enhancement_guidance env i a f s =
        get_enhancement_guidance env (normalizeKey i) (normalizeKey a)
          (normalizeKey f) (normalizeKey s)) := by
  refine ⟨normalizeKey_idem i, ?_, ?_, ?_⟩
  · intro p h1
    simp [get_imagery_profile, h1, normalizeKey_idem]
  · intro profile ad fd sd h1 h2 h3 h4
    rw [map_satellite_parameters_ok env i a f s profile ad fd sd h1 h2 h3 h4,
      map_satellite_parameters_ok env (normalizeKey i) (normalizeKey a)
        (normalizeKey f) (normalizeKey s) profile ad fd sd
        (by rw [normalizeKey_idem]; exact h1)
        (by rw [normalizeKey_idem]; exact h2)
        (by rw [normalizeKey_idem]; exact h3)
        (by rw [normalizeKey_idem]; exact h4)]
    simp [normalizeKey_idem]
  · intro profile h1
    simp [get_enhancement_guidance, h1, normalizeKey_idem]

/-- Claim C9 witness: a mixed-case spaced input and its normalized form
agree on the modelled tables for all three operations, including a guidance
call whose altitude is unknown in both spellings. -/
theorem prenormalization_invariant_on_valid_witness :
    normalizeKey (normalizeKey "True Color RGB") = normalizeKey "True Color RGB" ∧
    get_imagery_profile olog "True Color RGB" =
      get_imagery_profile olog (normalizeKey "True Color RGB") ∧
    map_satellite_parameters olog "True Color RGB" "Orbital" "Natural" "Strong" =
      map_satellite_parameters olog (normalizeKey "True Color RGB")
        (normalizeKey "Orbital") (normalizeKey "Natural") (normalizeKey "Strong") ∧
    get_enhancement_guidance olog "True Color RGB" "Stratospheric" "Natural" "Strong" =
      get_enhancement_guidance olog (normalizeKey "True Color RGB")
        (normalizeKey "Stratospheric") (normalizeKey "Natural") (normalizeKey "Strong") :=
  ⟨(prenormalization_invariant_on_valid olog
      "True Color RGB" "Orbital" "Natural" "Strong").1,
   (prenormalization_invariant_on_valid olog
      "True Color RGB" "Orbital" "Natural" "Strong").2.1
     (mkProfile "True Color RGB") (by decide),
   (prenormalization_invariant_on_valid olog
      "True Color RGB" "Orbital" "Natural" "Strong").2.2.1
     (mkProfile "True Color RGB")
     ⟨"view from orbit", "continental", "whole-earth curvature"⟩
     ⟨"landforms, water, vegetation"⟩
     ⟨6, "full aesthetic treatment"⟩
     (by decide) (by decide) (by decide) (by decide),
   (prenormalization_invariant_on_valid olog
      "True Color RGB" "Stratospheric" "Natural" "Strong").2.2.2
     (mkProfile "True Color RGB") (by decide)⟩
